import Mathlib

/-!
Verification development for the `ajax-systems-ha` integration.

This file gives a shallow embedding, in Lean, of the parts of the Python
source that the verified properties talk about:

* `custom_components/ajax_systems/sia/receiver.py` — the SIA DC-09
  protocol handler (`SiaProtocol._handle_message`, the three regex
  patterns, `_parse_ajax_event`, `_parse_event`, `_send_ack`,
  `sia_event_to_alarm_state`);
* `custom_components/ajax_systems/jeedom_mqtt_handler.py` — the Jeedom
  MQTT bridge (`COMMAND_MAPPING`, `JeedomDevice.update_from_command`,
  `JeedomMqttHandler._process_message`, `JeedomMqttHandler._handle_message`);
* `custom_components/ajax_systems/coordinator.py` —
  `AjaxDataCoordinator.async_setup`, `async_arm`, `async_disarm`,
  `async_arm_night`, `register_entity_for_mqtt`,
  `async_setup_mqtt_publisher`;
* `custom_components/ajax_systems/mqtt_publisher.py` —
  `AjaxMqttPublisher.track_entity`, `_async_publish_state`.

Python regular-expression searches are embedded as hand-written,
executable scanners over `List Char` that realize exactly the concrete
patterns used by the source (each scanner is justified next to its
definition).  Machine-level details that no property mentions
(timestamps taken from the wall clock, logging, byte-level socket I/O)
are omitted; each omission is noted at the corresponding definition.
-/

namespace AjaxSpec

/-! ## Python-builtin helpers

Shallow embeddings of the Python builtins used by the source:
`int(str)`, `float(str)`, `int(float)`, `str(...)`, `str.split`,
`str.upper`, `str.lower`, `str.strip`.
-/

/-- Characters counted by `str.strip()` / `int()` / `float()` surrounding
whitespace (ASCII whitespace; the messages involved are ASCII). -/
def isPyWhitespace (c : Char) : Bool :=
  c = ' ' || c = '\t' || c = '\n' || c = '\r' || c = '\x0b' || c = '\x0c'

/-- ASCII decimal digit test. -/
def isDigitCh (c : Char) : Bool := c.isDigit

/-- Numeric value of a list of ASCII digits (used for regex-guaranteed
digit runs, where Python applies `int(...)`). -/
def charsToNat (l : List Char) : Nat :=
  l.foldl (fun n c => n * 10 + (c.toNat - '0'.toNat)) 0

/-- Python `int(s)` on a string: optional surrounding whitespace, optional
sign, then one or more decimal digits.  (Digit-group underscores, accepted
by Python 3.6+, are not modelled; no property depends on them.)  Returns
`none` where Python raises `ValueError`. -/
def pyParseInt (s : String) : Option Int :=
  let l := (s.toList.dropWhile isPyWhitespace).reverse.dropWhile isPyWhitespace |>.reverse
  let (sign, l) : Int × List Char :=
    match l with
    | '-' :: rest => (-1, rest)
    | '+' :: rest => (1, rest)
    | _ => (1, l)
  if l.isEmpty then none
  else if l.all isDigitCh then some (sign * (charsToNat l : Int))
  else none

/-- Python `float(s)` on a string, as an exact rational: optional
surrounding whitespace, optional sign, then `digits[.digits] | .digits`,
then an optional exponent part `e|E [sign] digits`.  The special forms
`inf`/`infinity`/`nan` and digit-group underscores are not modelled (no
property depends on them).  Returns `none` where Python raises
`ValueError`.  The value is built with `mkRat` from integer arithmetic. -/
def pyParseFloat (s : String) : Option Rat :=
  let l := (s.toList.dropWhile isPyWhitespace).reverse.dropWhile isPyWhitespace |>.reverse
  let (signNeg, l) : Bool × List Char :=
    match l with
    | '-' :: rest => (true, rest)
    | '+' :: rest => (false, rest)
    | _ => (false, l)
  let (ip, l) := l.span isDigitCh
  let (fp, l) : List Char × List Char :=
    match l with
    | '.' :: rest => rest.span isDigitCh
    | _ => ([], l)
  if ip.isEmpty && fp.isEmpty then none
  else
    let mantNum : Nat := charsToNat ip * 10 ^ fp.length + charsToNat fp
    let mantDen : Nat := 10 ^ fp.length
    let sgn : Int := if signNeg then -1 else 1
    match l with
    | [] => some (mkRat (sgn * mantNum) mantDen)
    | e :: rest =>
      if e = 'e' || e = 'E' then
        let (esignNeg, rest) : Bool × List Char :=
          match rest with
          | '-' :: r => (true, r)
          | '+' :: r => (false, r)
          | _ => (false, rest)
        if rest.isEmpty || !rest.all isDigitCh then none
        else
          let ex := charsToNat rest
          if esignNeg then some (mkRat (sgn * mantNum) (mantDen * 10 ^ ex))
          else some (mkRat (sgn * (mantNum * 10 ^ ex)) mantDen)
      else none

instance {ε α : Type} [DecidableEq ε] [DecidableEq α] : DecidableEq (Except ε α) := fun x y =>
  match x, y with
  | .ok a, .ok b =>
    if h : a = b then isTrue (congrArg Except.ok h)
    else isFalse (fun hh => h (Except.ok.inj hh))
  | .error a, .error b =>
    if h : a = b then isTrue (congrArg Except.error h)
    else isFalse (fun hh => h (Except.error.inj hh))
  | .ok _, .error _ => isFalse (fun hh => Except.noConfusion hh)
  | .error _, .ok _ => isFalse (fun hh => Except.noConfusion hh)

/-- Python `s.upper()` restricted to ASCII (sufficient here: a non-ASCII
letter can never make the result equal `"CHARGED"`, the only use). -/
def pyUpper (s : String) : String := String.mk (s.toList.map Char.toUpper)

/-- Python `s.lower()` restricted to ASCII.  (Python also lowercases
accented letters; the keyword tables this feeds are used on a best-effort
heuristic path and every concrete input considered is ASCII.) -/
def pyLower (s : String) : String := String.mk (s.toList.map Char.toLower)

/-- Python `int(f)` on a float value: truncation toward zero
(`Int.tdiv` is Lean's truncating division). -/
def pyTrunc (q : Rat) : Int := Int.tdiv q.num (q.den : Int)

/-- Python `s.split(sep)` for a single-character separator (always returns
at least one piece, exactly like Python). -/
def pySplit (sep : Char) : List Char → List (List Char)
  | [] => [[]]
  | c :: rest =>
    let r := pySplit sep rest
    if c = sep then [] :: r
    else
      match r with
      | s :: ss => (c :: s) :: ss
      | [] => [[c]]

namespace Sia

/-! ## SIA DC-09 receiver (`sia/receiver.py`)

The three regex patterns of the source are embedded as deterministic
scanners.  `re.search` semantics (leftmost successful match position) is
realized by trying a match at every suffix, leftmost first.  Each scanner
is deterministic because, in every pattern, each greedy quantifier is
followed by a literal character that its own character class excludes —
except for the `(?P<seq>\w+)L` group of the DC-09 pattern, where the
required backtracking is resolved exactly (see `matchDc09At`).
-/

/-- Python `\w` on the ASCII messages handled by the receiver (the source
decodes messages with `.decode("ascii", errors="ignore")`). -/
def isWordCh (c : Char) : Bool := c.isAlphanum || c = '_'

/-- The character class `[A-Z]`. -/
def isUpperAZ (c : Char) : Bool := 'A' ≤ c && c ≤ 'Z'

/-- Captured groups of `AJAX_SIA_PATTERN`
`\[#(?P<account>\w+)\|Nri(?P<receiver>\d+)/(?P<code>[A-Z]{2})(?P<zone>\d*)\]`. -/
structure AjaxMatch where
  account : List Char
  receiver : List Char
  code : List Char
  zone : List Char
  deriving DecidableEq

/-- Attempt `AJAX_SIA_PATTERN` at the start of `l`.  Greedy `\w+` and `\d+`
runs are maximal; each is followed in the pattern by a character (`|`, `/`,
`]`) outside its class, so the maximal run is the only candidate. -/
def matchAjaxAt : List Char → Option AjaxMatch
  | '[' :: '#' :: rest =>
    let (acct, r1) := rest.span isWordCh
    if acct.isEmpty then none
    else
      match r1 with
      | '|' :: 'N' :: 'r' :: 'i' :: r2 =>
        let (recv, r3) := r2.span isDigitCh
        if recv.isEmpty then none
        else
          match r3 with
          | '/' :: c1 :: c2 :: r4 =>
            if isUpperAZ c1 && isUpperAZ c2 then
              let (zone, r5) := r4.span isDigitCh
              match r5 with
              | ']' :: _ => some ⟨acct, recv, [c1, c2], zone⟩
              | _ => none
            else none
          | _ => none
      | _ => none
  | _ => none

/-- `AJAX_SIA_PATTERN.search`: first position (leftmost) where the pattern
matches. -/
def searchAjax : List Char → Option AjaxMatch
  | [] => none
  | c :: rest =>
    match matchAjaxAt (c :: rest) with
    | some m => some m
    | none => searchAjax rest

/-- Captured groups of `SIA_MESSAGE_PATTERN`
`\[#(?P<account>\w+)\|(?P<code>[A-Z]{2})(?:/(?P<zone>\d+))?\]`. -/
structure StdMatch where
  account : List Char
  code : List Char
  zone : Option (List Char)
  deriving DecidableEq

/-- Attempt `SIA_MESSAGE_PATTERN` at the start of `l`.  If a `/` follows
the two-letter code, the optional zone group must succeed (digits then
`]`): on its failure the group-less alternative would need `]` directly
after the code, which the `/` contradicts. -/
def matchStdAt : List Char → Option StdMatch
  | '[' :: '#' :: rest =>
    let (acct, r1) := rest.span isWordCh
    if acct.isEmpty then none
    else
      match r1 with
      | '|' :: c1 :: c2 :: r2 =>
        if isUpperAZ c1 && isUpperAZ c2 then
          match r2 with
          | '/' :: r3 =>
            let (z, r4) := r3.span isDigitCh
            if z.isEmpty then none
            else
              match r4 with
              | ']' :: _ => some ⟨acct, [c1, c2], some z⟩
              | _ => none
          | ']' :: _ => some ⟨acct, [c1, c2], none⟩
          | _ => none
        else none
      | _ => none
  | _ => none

/-- `SIA_MESSAGE_PATTERN.search`. -/
def searchStd : List Char → Option StdMatch
  | [] => none
  | c :: rest =>
    match matchStdAt (c :: rest) with
    | some m => some m
    | none => searchStd rest

/-- Captured groups of `SIA_DC09_PATTERN`
`"SIA-DCS"(?P<seq>\w+)L(?P<line>\d+)#(?P<account>\w+)\[(?P<data>.*?)\]`. -/
structure Dc09Match where
  seq : List Char
  line : List Char
  account : List Char
  data : List Char
  deriving DecidableEq

/-- Index of the last `'L'` in `w` at position at least 1 (so the greedy
`\w+` before it is nonempty), if any. -/
def lastLIndex (w : List Char) : Option Nat :=
  (w.enum.filter (fun p => p.2 = 'L' && decide (1 ≤ p.1))).getLast?.map (·.1)

/-- The lazy `(?P<data>.*?)\]` group: the characters before the first `]`,
provided a `]` occurs and no newline precedes it (`.` does not match
newline). -/
def takeToRBracket (l : List Char) : Option (List Char) :=
  let (pre, rest) := l.span (fun c => c ≠ ']')
  if pre.contains '\n' then none
  else
    match rest with
    | ']' :: _ => some pre
    | _ => none

/-- Attempt `SIA_DC09_PATTERN` at the start of `l`.

After the literal `"SIA-DCS"` let `w` be the maximal `\w` run.  The
literal `L` after `(?P<seq>\w+)` must lie inside `w` (`L` is a word
character, and the character after `w` is not).  For a candidate split at
position `k` (`seq = w.take k`), the following `(?P<line>\d+)#` forces the
rest of `w` after the `L` to be a nonempty all-digit run followed by `#`;
any earlier candidate `L` leaves the later `L` — not a digit — inside that
run, so only the last `L` of `w` can succeed, which resolves the
backtracking exactly. -/
def matchDc09At : List Char → Option Dc09Match
  | '"' :: 'S' :: 'I' :: 'A' :: '-' :: 'D' :: 'C' :: 'S' :: '"' :: rest =>
    let (w, r1) := rest.span isWordCh
    match lastLIndex w with
    | none => none
    | some k =>
      let seq := w.take k
      let lineRun := w.drop (k + 1)
      if lineRun.isEmpty || !lineRun.all isDigitCh then none
      else
        match r1 with
        | '#' :: r2 =>
          let (acct, r3) := r2.span isWordCh
          if acct.isEmpty then none
          else
            match r3 with
            | '[' :: r4 =>
              match takeToRBracket r4 with
              | some data => some ⟨seq, lineRun, acct, data⟩
              | none => none
            | _ => none
        | _ => none
  | _ => none

/-- `SIA_DC09_PATTERN.search`. -/
def searchDc09 : List Char → Option Dc09Match
  | [] => none
  | c :: rest =>
    match matchDc09At (c :: rest) with
    | some m => some m
    | none => searchDc09 rest

/-- Attempt the ACK-sequence pattern `"SIA-DCS"(\w+)L` at the start of
`l` (used by `_handle_message` to extract the sequence for the ACK).  The
greedy `(\w+)` takes the longest prefix of the maximal word run that is
followed by an `L` inside that run. -/
def matchSeqAt : List Char → Option (List Char)
  | '"' :: 'S' :: 'I' :: 'A' :: '-' :: 'D' :: 'C' :: 'S' :: '"' :: rest =>
    let (w, _) := rest.span isWordCh
    (lastLIndex w).map (fun k => w.take k)
  | _ => none

/-- `re.search` for the ACK-sequence pattern. -/
def searchSeq : List Char → Option (List Char)
  | [] => none
  | c :: rest =>
    match matchSeqAt (c :: rest) with
    | some m => some m
    | none => searchSeq rest

/-- `SiaConfig` (receiver.py): only the fields `_handle_message` reads are
kept (`port` is irrelevant to message handling but retained). -/
structure SiaConfig where
  port : Nat := 2410
  account : String := "AAA"
  deriving DecidableEq

/-- `SiaEvent` (models.py): `timestamp` (wall-clock capture time) and
`raw_data` (the raw message, diagnostics only) are omitted — no verified
property mentions them. -/
structure SiaEvent where
  account : String
  eventCode : String
  zone : Option Nat := none
  deriving DecidableEq

/-- `SiaProtocol._parse_ajax_event`: zone from the trailing digit run
(`int` of a nonempty digit run, `None` otherwise), then the account
filter: with a non-empty configured account, a differing parsed account
yields `None` (event discarded). -/
def parseAjaxEvent (cfg : SiaConfig) (m : AjaxMatch) : Option SiaEvent :=
  let zone : Option Nat := if m.zone.isEmpty then none else some (charsToNat m.zone)
  if cfg.account ≠ "" && String.mk m.account ≠ cfg.account then none
  else some { account := String.mk m.account, eventCode := String.mk m.code, zone }

/-- `SiaProtocol._parse_event` (standard pattern variant). -/
def parseEvent (cfg : SiaConfig) (m : StdMatch) : Option SiaEvent :=
  let zone : Option Nat := m.zone.map charsToNat
  if cfg.account ≠ "" && String.mk m.account ≠ cfg.account then none
  else some { account := String.mk m.account, eventCode := String.mk m.code, zone }

/-- Observable actions of `SiaProtocol._handle_message` on one message:
writing an ACK to the connection (`_send_ack`, with the captured sequence
if any), invoking the event callback, or logging the could-not-parse
warning.  The transport is taken to be present (`_send_ack` writes only
then; connection teardown is not modelled). -/
inductive SiaAction where
  | sendAck (seq : Option String)
  | callbackEvent (ev : SiaEvent)
  | warnUnparsed
  deriving DecidableEq

/-- The ACK bytes written by `_send_ack`. -/
def ackString : Option String → String
  | some seq => "\"ACK\"" ++ seq ++ "L0#[]\r\n"
  | none => "ACK\r\n"

/-- Tail of `_handle_message`: the simple standard-format attempt, then
the could-not-parse warning. -/
def handleSimple (cfg : SiaConfig) (l : List Char) : List SiaAction :=
  match searchStd l with
  | some m =>
    match parseEvent cfg m with
    | some ev => [.sendAck none, .callbackEvent ev]
    | none => [.warnUnparsed]
  | none => [.warnUnparsed]

/-- Inside the DC-09 branch of `_handle_message`: the standard-format
attempt on `f"[#{account}|{data}]"`; on failure control falls through to
the simple attempt on the whole message. -/
def handleDc09Std (cfg : SiaConfig) (l : List Char) (d : Dc09Match) : List SiaAction :=
  match searchStd ('[' :: '#' :: d.account ++ '|' :: d.data ++ [']']) with
  | some m =>
    match parseEvent cfg m with
    | some ev => [.sendAck (some (String.mk d.seq)), .callbackEvent ev]
    | none => handleSimple cfg l
  | none => handleSimple cfg l

/-- The DC-09 branch of `_handle_message`: on a DC-09 envelope match, try
the Ajax pattern on `f"[{data}]"`, then the standard pattern; with no
envelope match fall through to the simple attempt. -/
def handleDc09 (cfg : SiaConfig) (l : List Char) : List SiaAction :=
  match searchDc09 l with
  | some d =>
    match searchAjax ('[' :: d.data ++ [']']) with
    | some m =>
      match parseAjaxEvent cfg m with
      | some ev => [.sendAck (some (String.mk d.seq)), .callbackEvent ev]
      | none => handleDc09Std cfg l d
    | none => handleDc09Std cfg l d
  | none => handleSimple cfg l

/-- `SiaProtocol._handle_message`: Ajax-specific pattern on the whole
message first (ACK sequence re-extracted from the full message by a
separate search), then the DC-09 envelope, then the simple standard
format, else the warning.  The returned list is the ordered sequence of
observable actions. -/
def handleMessage (cfg : SiaConfig) (msg : String) : List SiaAction :=
  match searchAjax msg.toList with
  | some m =>
    match parseAjaxEvent cfg m with
    | some ev => [.sendAck ((searchSeq msg.toList).map String.mk), .callbackEvent ev]
    | none => handleDc09 cfg msg.toList
  | none => handleDc09 cfg msg.toList

/-- `AjaxAlarmState` (const.py). -/
inductive AjaxAlarmState where
  | disarmed
  | armedAway
  | armedHome
  | armedNight
  | arming
  | pending
  | triggered
  deriving DecidableEq

/-- `sia_event_to_alarm_state` (receiver.py). -/
def siaEventToAlarmState (ev : SiaEvent) : Option AjaxAlarmState :=
  let code := ev.eventCode
  if code = "CL" then some .armedAway
  else if code = "OP" then some .disarmed
  else if code = "NL" then some .armedHome
  else if code = "NR" then some .disarmed
  else if code ∈ (["BA", "FA", "PA", "WA", "TA"] : List String) then some .triggered
  else if code ∈ (["BR", "FR", "PR", "WR", "TR"] : List String) then none
  else none

/-- A message outcome is an ACK write. -/
def SiaAction.isAck : SiaAction → Bool
  | .sendAck _ => true
  | _ => false

/-- A message outcome is an event delivery. -/
def SiaAction.isCallback : SiaAction → Bool
  | .callbackEvent _ => true
  | _ => false

end Sia

namespace Jeedom

/-! ## Jeedom MQTT bridge (`jeedom_mqtt_handler.py`) -/

/-- A JSON value as found in the `value` field of a Jeedom payload.
`jNull` doubles as a missing field (`payload.get("value")` yields `None`).
JSON numbers are modelled exactly: integers as `jInt`, non-integral
numbers as `jNum` (a rational; Python floats of messages are decimal
literals). -/
inductive JValue where
  | jNull
  | jBool (b : Bool)
  | jInt (n : Int)
  | jNum (q : Rat)
  | jStr (s : String)
  deriving DecidableEq

/-- Python `str(value)` for a float.  The exact float formatting is
abstracted to a canonical rational rendering; it only feeds string-valued
attributes (`signal`, `state`, `battery_state`), whose exact text no
verified property depends on. -/
def pyFloatRepr (q : Rat) : String :=
  toString q.num ++ "/" ++ toString q.den

/-- `str(value) if value is not None else None` (update_from_command's
default branch). -/
def pyStrOpt : JValue → Option String
  | .jNull => none
  | .jBool b => some (if b then "True" else "False")
  | .jInt n => some (toString n)
  | .jNum q => some (pyFloatRepr q)
  | .jStr s => some s

/-- `bool(int(value)) if isinstance(value, (int, float, str)) else
bool(value)` (the binary branch of `update_from_command`).  A `bool` is an
`int` in Python; `int` on a non-numeric string raises `ValueError`, which
`update_from_command` does not catch (modelled as `Except.error`);
`bool(None)` is `False`. -/
def pyBoolOfValue : JValue → Except Unit Bool
  | .jNull => .ok false
  | .jBool b => .ok b
  | .jInt n => .ok (n ≠ 0)
  | .jNum q => .ok (pyTrunc q ≠ 0)
  | .jStr s =>
    match pyParseInt s with
    | some n => .ok (n ≠ 0)
    | none => .error ()

/-- `float(value)` with `ValueError`/`TypeError` giving `None` (the
temperature branch). -/
def pyFloatOfValue : JValue → Option Rat
  | .jNull => none
  | .jBool b => some (if b then 1 else 0)
  | .jInt n => some (n : Rat)
  | .jNum q => some q
  | .jStr s => pyParseFloat s

/-- One entry of `COMMAND_MAPPING`: target attribute name, the `binary`
flag, the `invert` flag (default `False`), and the fixed `value` carried
by the alarm-state commands. -/
structure CmdMapping where
  attr : String
  binary : Bool
  invert : Bool := false
  fixedValue : Option String := none
  deriving DecidableEq

/-- `COMMAND_MAPPING` (jeedom_mqtt_handler.py), entry for entry. -/
def commandMapping : String → Option CmdMapping
  | "Trafiqué" => some { attr := "tamper", binary := true, invert := false }
  | "Non trafiqué" => some { attr := "tamper", binary := true, invert := true }
  | "Sabotage" => some { attr := "tamper", binary := true, invert := false }
  | "En ligne" => some { attr := "online", binary := true, invert := false }
  | "Hors ligne" => some { attr := "online", binary := true, invert := true }
  | "Connecté" => some { attr := "online", binary := true, invert := false }
  | "Déconnecté" => some { attr := "online", binary := true, invert := true }
  | "Ethernet" => some { attr := "ethernet", binary := true, invert := false }
  | "Alimentation secteur" => some { attr := "power", binary := true, invert := false }
  | "Ouvert" => some { attr := "is_open", binary := true, invert := true }
  | "Fermé" => some { attr := "is_open", binary := true, invert := false }
  | "Ouverte" => some { attr := "is_open", binary := true, invert := true }
  | "Fermée" => some { attr := "is_open", binary := true, invert := false }
  | "Ouverture" => some { attr := "is_open", binary := true, invert := true }
  | "Mouvement" => some { attr := "motion", binary := true, invert := false }
  | "Mouvement détecté" => some { attr := "motion", binary := true, invert := false }
  | "Fuite" => some { attr := "leak", binary := true, invert := false }
  | "Fuite détectée" => some { attr := "leak", binary := true, invert := false }
  | "Fuite d'eau" => some { attr := "leak", binary := true, invert := false }
  | "Inondation" => some { attr := "leak", binary := true, invert := false }
  | "Fumée" => some { attr := "smoke", binary := true, invert := false }
  | "Fumée détectée" => some { attr := "smoke", binary := true, invert := false }
  | "Incendie" => some { attr := "fire", binary := true, invert := false }
  | "Température" => some { attr := "temperature", binary := false }
  | "Batterie" => some { attr := "battery", binary := false }
  | "Etat de la batterie" => some { attr := "battery_state", binary := false }
  | "Signal" => some { attr := "signal", binary := false }
  | "Etat" => some { attr := "state", binary := false }
  | "Armé" => some { attr := "alarm_state", binary := false, fixedValue := some "armed" }
  | "Désarmé" => some { attr := "alarm_state", binary := false, fixedValue := some "disarmed" }
  | "Mode nuit" => some { attr := "alarm_state", binary := false, fixedValue := some "night" }
  | _ => none

/-- `COMMAND_TO_DEVICE_TYPE` (jeedom_mqtt_handler.py). -/
def commandToDeviceType : String → Option String
  | "Ouvert" => some "door"
  | "Fermé" => some "door"
  | "Ouverte" => some "door"
  | "Fermée" => some "door"
  | "Ouverture" => some "door"
  | "Mouvement" => some "motion"
  | "Mouvement détecté" => some "motion"
  | "Fuite" => some "leak"
  | "Fuite détectée" => some "leak"
  | "Fuite d'eau" => some "leak"
  | "Inondation" => some "leak"
  | "Fumée" => some "smoke"
  | "Fumée détectée" => some "smoke"
  | "Incendie" => some "smoke"
  | "Ethernet" => some "hub"
  | "Alimentation secteur" => some "hub"
  | _ => none

/-- Python substring containment (`sub in l`). -/
def listContainsSub (sub : List Char) : List Char → Bool
  | [] => sub.isEmpty
  | c :: rest => sub.isPrefixOf (c :: rest) || listContainsSub sub rest

/-- `sub in s` for strings. -/
def containsSub (s sub : String) : Bool := listContainsSub sub.toList s.toList

/-- `DEVICE_TYPE_PATTERNS` (Python dict, insertion order preserved). -/
def deviceTypePatterns : List (String × List String) :=
  [("hub", ["hub", "1020", "centrale", "hub 2"]),
   ("door", ["door", "doorprotect", "fin.", "porta", "finestra", "porte", "fenêtre",
             "ingresso", "entrata"]),
   ("motion", ["ir", "pir", "motion", "movimento", "motionprotect"]),
   ("siren", ["sirena", "sirène", "siren", "homesiren", "streetsiren"]),
   ("keypad", ["tastiera", "clavier", "keypad"]),
   ("remote", ["telecomando", "télécommande", "remote", "spacecontrol"]),
   ("leak", ["leak", "fuite", "acqua", "water", "leaksprotect"]),
   ("smoke", ["smoke", "fumée", "fire", "incendie", "fireprotect"])]

/-- `JeedomMqttHandler._detect_device_type`: virtual/aggregate keyword
filtering, then the first pattern table entry with a matching keyword,
else `"unknown"`. -/
def detectDeviceType (deviceName : String) : String :=
  let nameLower := pyLower deviceName
  if ["totale", "total", "tlc", "somma", "sum", "aggreg"].any
      (fun k => containsSub nameLower k) then "virtual"
  else
    match deviceTypePatterns.find? (fun e => e.2.any (fun p => containsSub nameLower p)) with
    | some e => e.1
    | none => "unknown"

/-- `JeedomDevice` (jeedom_mqtt_handler.py).  The `last_update` wall-clock
timestamp is omitted — it is refreshed from `datetime.now()` on change and
no verified property mentions it. -/
structure JeedomDevice where
  device_id : String
  name : String
  zone : String
  device_type : String
  tamper : Option Bool := none
  online : Option Bool := none
  is_open : Option Bool := none
  motion : Option Bool := none
  leak : Option Bool := none
  smoke : Option Bool := none
  fire : Option Bool := none
  temperature : Option Rat := none
  battery : Option Int := none
  battery_state : Option String := none
  signal : Option String := none
  state : Option String := none
  alarm_state : Option String := none
  ethernet : Option Bool := none
  power : Option Bool := none
  jeedom_commands : List (String × String) := []
  deriving DecidableEq

/-- Fresh device as constructed by `_process_message` on first sight. -/
def mkJeedomDevice (deviceId name zone dtype : String) : JeedomDevice :=
  { device_id := deviceId, name := name, zone := zone, device_type := dtype }

/-- `getattr(self, attr, None)` for the boolean attributes named by
`COMMAND_MAPPING`'s binary entries. -/
def getBoolAttr (d : JeedomDevice) : String → Option Bool
  | "tamper" => d.tamper
  | "online" => d.online
  | "is_open" => d.is_open
  | "motion" => d.motion
  | "leak" => d.leak
  | "smoke" => d.smoke
  | "fire" => d.fire
  | "ethernet" => d.ethernet
  | "power" => d.power
  | _ => none

/-- `setattr(self, attr, v)` for the same boolean attributes (every
binary mapping entry targets one of them, so the fall-through is
unreachable from `update_from_command`). -/
def setBoolAttr (d : JeedomDevice) (attr : String) (v : Option Bool) : JeedomDevice :=
  if attr = "tamper" then { d with tamper := v }
  else if attr = "online" then { d with online := v }
  else if attr = "is_open" then { d with is_open := v }
  else if attr = "motion" then { d with motion := v }
  else if attr = "leak" then { d with leak := v }
  else if attr = "smoke" then { d with smoke := v }
  else if attr = "fire" then { d with fire := v }
  else if attr = "ethernet" then { d with ethernet := v }
  else if attr = "power" then { d with power := v }
  else d

/-- `getattr(self, attr, None)` for the string-valued attributes named by
the non-binary mapping entries. -/
def getStrAttr (d : JeedomDevice) : String → Option String
  | "battery_state" => d.battery_state
  | "signal" => d.signal
  | "state" => d.state
  | "alarm_state" => d.alarm_state
  | _ => none

/-- `setattr(self, attr, v)` for the same string attributes. -/
def setStrAttr (d : JeedomDevice) (attr : String) (v : Option String) : JeedomDevice :=
  if attr = "battery_state" then { d with battery_state := v }
  else if attr = "signal" then { d with signal := v }
  else if attr = "state" then { d with state := v }
  else if attr = "alarm_state" then { d with alarm_state := v }
  else d

/-- Ordered-association update, as a Python dict assignment: replace in
place if the key exists, else append. -/
def assocSet {α : Type} : List (String × α) → String → α → List (String × α)
  | [], k, v => [(k, v)]
  | (k₀, v₀) :: rest, k, v =>
    if k₀ = k then (k, v) :: rest else (k₀, v₀) :: assocSet rest k v

/-- Ordered-association lookup (Python `dict.get` / `in`). -/
def assocGet {α : Type} : List (String × α) → String → Option α
  | [], _ => none
  | (k₀, v₀) :: rest, k => if k₀ = k then some v₀ else assocGet rest k

/-- `JeedomDevice.update_from_command`.  Returns the device after all
mutations performed up to a `ValueError` raise (`Except.error`, from
`int()` on a non-numeric string in the binary branch — the only uncaught
exception site) or the changed flag (`Except.ok`). -/
def updateFromCommand (d : JeedomDevice) (commandName : String) (value : JValue)
    (topicId : String) : JeedomDevice × Except Unit Bool :=
  match commandMapping commandName with
  | none => (d, .ok false)
  | some m =>
    let d := { d with jeedom_commands := assocSet d.jeedom_commands commandName topicId }
    if m.binary then
      match pyBoolOfValue value with
      | .error e => (d, .error e)
      | .ok b0 =>
        let b := if m.invert then !b0 else b0
        let old := getBoolAttr d m.attr
        let d := setBoolAttr d m.attr (some b)
        (d, .ok (old ≠ some b))
    else if m.attr = "temperature" then
      let new := pyFloatOfValue value
      let old := d.temperature
      ({ d with temperature := new }, .ok (old ≠ new))
    else if m.attr = "battery" then
      let new : Option Int :=
        match value with
        | .jStr s =>
          if pyUpper s = "CHARGED" then some 100 else (pyParseFloat s).map pyTrunc
        | .jInt n => some n
        | .jBool b => some (if b then 1 else 0)
        | .jNum q => some (pyTrunc q)
        | .jNull => none
      let old := d.battery
      ({ d with battery := new }, .ok (old ≠ new))
    else
      match m.fixedValue with
      | some v =>
        let old := getStrAttr d m.attr
        let d := setStrAttr d m.attr (some v)
        (d, .ok (old ≠ some v))
      | none =>
        let new := pyStrOpt value
        let old := getStrAttr d m.attr
        let d := setStrAttr d m.attr new
        (d, .ok (old ≠ new))

/-- One Jeedom MQTT payload: only the fields `_process_message` uses for
control flow (`subtype` and `unite` are read but never used). -/
structure JPayload where
  value : JValue := .jNull
  humanName : String := ""
  name : String := ""
  deriving DecidableEq

/-- Bounded scanner realizing `re.findall` of `\[([^\]]+)\]`: each step
either consumes a full bracketed group or advances one position; the fuel
`l.length` therefore always suffices. -/
def findBracketsGo : Nat → List Char → List String
  | 0, _ => []
  | _ + 1, [] => []
  | fuel + 1, c :: rest =>
    if c = '[' then
      let (content, r) := rest.span (fun c => c ≠ ']')
      match r with
      | ']' :: tail =>
        if content.isEmpty then findBracketsGo fuel rest
        else String.mk content :: findBracketsGo fuel tail
      | _ => findBracketsGo fuel rest
    else findBracketsGo fuel rest

/-- `re.findall` of `\[([^\]]+)\]` over a human-name string. -/
def findBrackets (l : List Char) : List String := findBracketsGo l.length l

/-- `JeedomMqttHandler._parse_human_name`: `[Zone][Device][Command]`,
with the whole string as device fallback. -/
def parseHumanName (humanName : String) : String × String × String :=
  let parts := findBrackets humanName.toList
  let zone := parts.getD 0 ""
  let device := if parts.length > 1 then parts.getD 1 "" else humanName
  let command := parts.getD 2 ""
  (zone, device, command)

/-- Replace every non-alphanumeric (ASCII) character by an underscore
(`re.sub(r"[^a-zA-Z0-9]", "_", ...)`). -/
def sanitizeChars (l : List Char) : List Char :=
  l.map (fun c => if c.isAlphanum then c else '_')

/-- Collapse runs of underscores (`re.sub(r"_+", "_", ...)`). -/
def collapseUnderscores : List Char → List Char
  | [] => []
  | c :: rest =>
    let r := collapseUnderscores rest
    if c = '_' then
      match r with
      | '_' :: _ => r
      | _ => '_' :: r
    else c :: r

/-- The name-cleaning pipeline of `_get_device_id`: sanitize, collapse,
strip underscores, lowercase.  (Python's `.lower()` is Unicode-aware, but
every non-ASCII character was already replaced by `_` in the first step,
so ASCII lowercasing is exact here.) -/
def cleanIdPart (s : String) : String :=
  let l := collapseUnderscores (sanitizeChars s.toList)
  let l := (l.dropWhile (· = '_')).reverse.dropWhile (· = '_') |>.reverse
  String.mk (l.map Char.toLower)

/-- `JeedomMqttHandler._get_device_id`. -/
def getDeviceId (deviceName zone : String) : String :=
  if zone ≠ "" && !(["nessuno", "aucun", "none", ""].contains (pyLower zone)) then
    "ajax_" ++ cleanIdPart zone ++ "_" ++ cleanIdPart deviceName
  else
    "ajax_" ++ cleanIdPart deviceName

/-- `topic.split("/")[-1]` (Python `split` never yields an empty list, so
the `"0"` default of the source is unreachable). -/
def topicIdOf (topic : String) : String :=
  String.mk ((pySplit '/' topic.toList).getLastD ['0'])

/-- The `device_type` upgrade step of `_process_message` (an `"unknown"`
device adopts the type implied by a recognized command name). -/
def applyCommandTypeUpgrade (d : JeedomDevice) (commandName : String) : JeedomDevice :=
  if d.device_type = "unknown" then
    match commandToDeviceType commandName with
    | some t => { d with device_type := t }
    | none => d
  else d

/-- `JeedomMqttHandler._process_message`.  The handler state is the
ordered `device_id → JeedomDevice` registry (`self._devices`).  The
second component is the returned `(device, changed_attribute)` value,
with the device given by its id; `none` models both the explicit `None`
returns and the `except Exception` handler (which keeps every mutation
made before the raise, exactly as Python's in-place mutation does). -/
def processMessage (st : List (String × JeedomDevice)) (topic : String) (p : JPayload) :
    List (String × JeedomDevice) × Option (String × Option String) :=
  let topicId := topicIdOf topic
  if p.humanName = "" || p.name = "" then (st, none)
  else
    let parsed := parseHumanName p.humanName
    let zone := parsed.1
    let deviceName := parsed.2.1
    if deviceName = "" then (st, none)
    else
      let deviceId := getDeviceId deviceName zone
      let found := assocGet st deviceId
      let isNew := found.isNone
      let d0 :=
        match found with
        | some d => d
        | none => mkJeedomDevice deviceId deviceName zone (detectDeviceType deviceName)
      let d1 := applyCommandTypeUpgrade d0 p.name
      let step := updateFromCommand d1 p.name p.value topicId
      let st' := assocSet st deviceId step.1
      match step.2 with
      | .error _ => (st', none)
      | .ok changed =>
        if changed || isNew then
          let attr :=
            if changed then
              match commandMapping p.name with
              | some m => m.attr
              | none => p.name
            else "device_type"
          (st', some (deviceId, some attr))
        else (st', some (deviceId, none))

/-- `JeedomMqttHandler._handle_message`: JSON decoding failure (`none`
payload) is absorbed; otherwise the message is processed and — whenever
`_process_message` returns a (truthy) tuple — the registered callbacks
are invoked and the dispatcher signal is sent with exactly the returned
`(device, changed_attr)` arguments.  The second component is therefore
`some args` iff a notification is delivered, carrying its arguments. -/
def handleMqttMessage (st : List (String × JeedomDevice)) (topic : String)
    (mp : Option JPayload) : List (String × JeedomDevice) × Option (String × Option String) :=
  match mp with
  | none => (st, none)
  | some p => processMessage st topic p

end Jeedom

namespace Coord

/-! ## Coordinator (`coordinator.py`) -/

/-- `AjaxHub` (models.py), restricted to the fields `async_setup` sets and
the claims read (the remaining fields keep their dataclass defaults and
are never touched by setup).  `device_type` is the `StrEnum` value. -/
structure AjaxHub where
  device_id : String
  device_type : String
  name : String
  hub_id : String
  state : Sia.AjaxAlarmState
  deriving DecidableEq

/-- A device registry entry; `async_setup` never creates any, so only its
emptiness matters to the setup properties. -/
structure AjaxDeviceEntry where
  device_id : String
  device_type : String
  deriving DecidableEq

/-- `AjaxCoordinator` (models.py): the aggregate state (`last_update`
wall-clock stamp omitted; setup never touches it). -/
structure CoordData where
  hub : Option AjaxHub := none
  devices : List (String × AjaxDeviceEntry) := []
  connected : Bool := false
  deriving DecidableEq

/-- The configuration-entry fields `async_setup` reads, as stored options
(`none` means the key is absent and the `entry.data.get(..., default)`
default applies).  SIA port/account feed only the receiver construction
and do not influence the setup outcome, which is abstracted by
`SetupEnv`. -/
structure ConfigEntry where
  useSia : Option Bool := none
  useJeedomMqtt : Option Bool := none
  hubId : Option String := none
  deriving DecidableEq

/-- Environment outcomes of the two transport start-ups:
`siaStartOk = false` covers both `SiaReceiver.start` returning `False`
(bind failure) and the exception path (both leave `sia_ok` unset);
likewise for the Jeedom MQTT handler (`_setup_jeedom_mqtt` returns
`False` on subscribe failure, import error, or any exception). -/
structure SetupEnv where
  siaStartOk : Bool
  jeedomStartOk : Bool
  deriving DecidableEq

/-- The placeholder hub built by `async_setup` when `self.data.hub` is
`None` (which at setup time it always is: `__init__` sets a fresh
`AjaxCoordinator()`). -/
def defaultHub (hubId : String) : AjaxHub :=
  { device_id := hubId, device_type := "Hub 2", name := "Ajax Hub", hub_id := hubId,
    state := .disarmed }

/-- `AjaxDataCoordinator.async_setup`: start the enabled transports,
record connectivity, synthesize the default hub, and return `True` on
every path (the no-transport path logs a warning and still returns
`True`). -/
def asyncSetup (entry : ConfigEntry) (env : SetupEnv) : Bool × CoordData :=
  let siaOk := entry.useSia.getD true && env.siaStartOk
  let jeedomOk := entry.useJeedomMqtt.getD false && env.jeedomStartOk
  let hubId := entry.hubId.getD "ajax_hub"
  let data : CoordData :=
    { hub := some (defaultHub hubId), devices := [], connected := siaOk || jeedomOk }
  (true, data)

/-- `AjaxDataCoordinator.async_arm`: logs a warning and returns `False`
unconditionally (arm requires the Jeedom proxy, which this coordinator
never invokes); the aggregate state is untouched. -/
def asyncArm (data : CoordData) : Bool × CoordData := (false, data)

/-- `AjaxDataCoordinator.async_disarm`: same shape as `async_arm`. -/
def asyncDisarm (data : CoordData) : Bool × CoordData := (false, data)

/-- `AjaxDataCoordinator.async_arm_night`: same shape as `async_arm`. -/
def asyncArmNight (data : CoordData) : Bool × CoordData := (false, data)

end Coord

namespace Publisher

/-! ## Outbound MQTT publisher (`mqtt_publisher.py`) and the
coordinator's entity-tracking registration. -/

/-- `AjaxMqttPublisher` tracking state: the `_tracked_entities` set (kept
as an ordered list of distinct ids) and the `_unsubscribe_callbacks`
list, one entry per `async_track_state_change_event` subscription,
recorded by the entity id it watches. -/
structure PubState where
  isRunning : Bool
  trackedEntities : List String
  subscriptions : List String
  deriving DecidableEq

/-- `AjaxMqttPublisher.track_entity`: an already-tracked id is a no-op; a
not-running publisher drops the request; otherwise the id is added and
one state-change subscription is created. -/
def trackEntity (p : PubState) (entityId : String) : PubState :=
  if p.trackedEntities.contains entityId then p
  else if !p.isRunning then p
  else
    { p with
      trackedEntities := p.trackedEntities ++ [entityId],
      subscriptions := p.subscriptions ++ [entityId] }

/-- The coordinator's MQTT-publishing state: `_tracked_entity_ids` and
the optional `_mqtt_publisher`. -/
structure CoordMqtt where
  trackedEntityIds : List String
  publisher : Option PubState
  deriving DecidableEq

/-- `AjaxDataCoordinator.register_entity_for_mqtt`: queue the id once,
and forward to a running publisher immediately. -/
def registerEntityForMqtt (c : CoordMqtt) (entityId : String) : CoordMqtt :=
  if c.trackedEntityIds.contains entityId then c
  else
    { trackedEntityIds := c.trackedEntityIds ++ [entityId],
      publisher := c.publisher.map (fun p => trackEntity p entityId) }

/-- `AjaxDataCoordinator.async_setup_mqtt_publisher`: when publishing is
enabled and `AjaxMqttPublisher.async_start` succeeds (`startOk` bundles
the enabled-flag and MQTT-availability checks of `async_start`), a fresh
running publisher is created and every queued id is tracked; on start
failure the publisher is discarded (`self._mqtt_publisher = None`). -/
def setupMqttPublisher (c : CoordMqtt) (useMqttPublish startOk : Bool) : CoordMqtt :=
  if !useMqttPublish then c
  else if startOk then
    let p0 : PubState := { isRunning := true, trackedEntities := [], subscriptions := [] }
    { c with publisher := some (c.trackedEntityIds.foldl trackEntity p0) }
  else { c with publisher := none }

/-- `AjaxMqttPublisher._async_publish_state`, topic construction: split
the entity id on `"."`; exactly two parts build
`{prefix}/{hub_id}/{domain}/{object_id}/state`, anything else returns
without publishing. -/
def buildStateTopic (topicPref hubId entityId : String) : Option String :=
  match pySplit '.' entityId.toList with
  | [domain, objectId] =>
    some (topicPref ++ "/" ++ hubId ++ "/" ++ String.mk domain ++ "/" ++
      String.mk objectId ++ "/state")
  | _ => none

end Publisher

/-! ## Concrete instances used by the counterexamples and witnesses -/

/-- A door-sensor payload: the `Ouvert` command of device `Porta` in zone
`Zone1`, raw value 1 (door closed in the Ajax raw convention). -/
def exPayload : Jeedom.JPayload :=
  { value := .jInt 1, humanName := "[Zone1][Porta][Ouvert]", name := "Ouvert" }

/-- The device record produced by processing `exPayload` once from an
empty registry (discovered as a door, `is_open` already `some false`). -/
def exDevice : Jeedom.JeedomDevice :=
  { Jeedom.mkJeedomDevice "ajax_zone1_porta" "Porta" "Zone1" "door" with
      is_open := some false, jeedom_commands := [("Ouvert", "91")] }

/-- A registry that already holds `exDevice`. -/
def exState : List (String × Jeedom.JeedomDevice) := [("ajax_zone1_porta", exDevice)]

/-- A freshly discovered door sensor with no attribute set yet. -/
def exFreshDoor : Jeedom.JeedomDevice := Jeedom.mkJeedomDevice "d1" "Porta" "" "door"

/-! ## Verified properties -/

/-- C4: `sia_event_to_alarm_state` is total and maps CL to armed-away,
OP to disarmed, NL to armed-home, NR to disarmed, each of BA/FA/PA/WA/TA
to triggered, each of BR/FR/PR/WR/TR to no new state, and every two-letter
code outside this set to no new state. -/
theorem c4_alarm_state_mapping :
    ∀ (acct : String) (z : Option Nat),
      Sia.siaEventToAlarmState ⟨acct, "CL", z⟩ = some .armedAway
      ∧ Sia.siaEventToAlarmState ⟨acct, "OP", z⟩ = some .disarmed
      ∧ Sia.siaEventToAlarmState ⟨acct, "NL", z⟩ = some .armedHome
      ∧ Sia.siaEventToAlarmState ⟨acct, "NR", z⟩ = some .disarmed
      ∧ (∀ c ∈ (["BA", "FA", "PA", "WA", "TA"] : List String),
          Sia.siaEventToAlarmState ⟨acct, c, z⟩ = some .triggered)
      ∧ (∀ c ∈ (["BR", "FR", "PR", "WR", "TR"] : List String),
          Sia.siaEventToAlarmState ⟨acct, c, z⟩ = none)
      ∧ (∀ c : String, c.length = 2 →
          c ∉ (["CL", "OP", "NL", "NR", "BA", "FA", "PA", "WA", "TA",
                "BR", "FR", "PR", "WR", "TR"] : List String) →
          Sia.siaEventToAlarmState ⟨acct, c, z⟩ = none) := by
  intro acct z
  refine ⟨by simp [Sia.siaEventToAlarmState], by simp [Sia.siaEventToAlarmState],
    by simp [Sia.siaEventToAlarmState], by simp [Sia.siaEventToAlarmState], ?_, ?_, ?_⟩
  · intro c hc
    fin_cases hc <;> simp [Sia.siaEventToAlarmState]
  · intro c hc
    fin_cases hc <;> simp [Sia.siaEventToAlarmState]
  · intro c _ hmem
    simp only [List.mem_cons, List.not_mem_nil, or_false, not_or] at hmem
    obtain ⟨h1, h2, h3, h4, h5, h6, h7, h8, h9, h10, h11, h12, h13, h14⟩ := hmem
    simp [Sia.siaEventToAlarmState, h1, h2, h3, h4, h5, h6, h7, h8, h9, h10,
      h11, h12, h13, h14]

/-- C4 witness: the mapping evaluated at concrete events, including a
two-letter code outside the documented set. -/
theorem c4_alarm_state_mapping_witness :
    ("ZZ" : String).length = 2
    ∧ ("ZZ" : String) ∉ (["CL", "OP", "NL", "NR", "BA", "FA", "PA", "WA", "TA",
        "BR", "FR", "PR", "WR", "TR"] : List String)
    ∧ Sia.siaEventToAlarmState ⟨"AAA", "ZZ", none⟩ = none
    ∧ Sia.siaEventToAlarmState ⟨"AAA", "BA", none⟩ = some .triggered := by
  refine ⟨by decide, by decide, ?_, ?_⟩
  · exact (c4_alarm_state_mapping "AAA" none).2.2.2.2.2.2 "ZZ" (by decide) (by decide)
  · exact (c4_alarm_state_mapping "AAA" none).2.2.2.2.1 "BA" (by decide)

/-- C5: with every transport disabled or failing, `async_setup` still
returns `True` and the aggregate state holds exactly one Hub — the
synthesized placeholder — in the disarmed state, with the configured hub
identifier, and no other devices. -/
theorem c5_placeholder_hub (entry : Coord.ConfigEntry) (env : Coord.SetupEnv)
    (hsia : entry.useSia.getD true = false ∨ env.siaStartOk = false)
    (hjeedom : entry.useJeedomMqtt.getD false = false ∨ env.jeedomStartOk = false) :
    Coord.asyncSetup entry env =
      (true,
        { hub := some (Coord.defaultHub (entry.hubId.getD "ajax_hub")),
          devices := [], connected := false })
    ∧ (Coord.defaultHub (entry.hubId.getD "ajax_hub")).state = .disarmed
    ∧ (Coord.defaultHub (entry.hubId.getD "ajax_hub")).device_id = entry.hubId.getD "ajax_hub" := by
  refine ⟨?_, rfl, rfl⟩
  simp only [Coord.asyncSetup]
  have h1 : (entry.useSia.getD true && env.siaStartOk) = false := by
    rcases hsia with h | h <;> simp [h]
  have h2 : (entry.useJeedomMqtt.getD false && env.jeedomStartOk) = false := by
    rcases hjeedom with h | h <;> simp [h]
  rw [h1, h2]
  rfl

/-- C5 witness: a configuration with SIA enabled but failing to bind and
the Jeedom bridge disabled. -/
theorem c5_placeholder_hub_witness :
    Coord.asyncSetup { hubId := some "myhub" } { siaStartOk := false, jeedomStartOk := false } =
      (true, { hub := some (Coord.defaultHub "myhub"), devices := [], connected := false }) :=
  (c5_placeholder_hub { hubId := some "myhub" }
    { siaStartOk := false, jeedomStartOk := false } (Or.inr rfl) (Or.inr rfl)).1

/-- C6: `async_arm`, `async_disarm` and `async_arm_night` each return a
failure outcome without raising and leave the aggregate state — in
particular the Hub's alarm state — untouched (the source returns `False`
unconditionally, so this holds for every coordinator state, including the
receiver-only configuration). -/
theorem c6_commands_fail_without_proxy (data : Coord.CoordData) :
    Coord.asyncArm data = (false, data)
    ∧ Coord.asyncDisarm data = (false, data)
    ∧ Coord.asyncArmNight data = (false, data)
    ∧ (Coord.asyncArm data).2.hub = data.hub :=
  ⟨rfl, rfl, rfl, rfl⟩

/-- Splitting a separator-free string yields the single piece. -/
theorem pySplit_no_sep (sep : Char) (l : List Char) (h : ∀ c ∈ l, c ≠ sep) :
    pySplit sep l = [l] := by
  induction l with
  | nil => rfl
  | cons c rest ih =>
    have hc : c ≠ sep := h c (List.mem_cons_self c rest)
    have hrest : ∀ x ∈ rest, x ≠ sep := fun x hx => h x (List.mem_cons_of_mem c hx)
    simp [pySplit, hc, ih hrest]

/-- Splitting a string with exactly one separator yields the two pieces
around it. -/
theorem pySplit_one_sep (sep : Char) (d o : List Char)
    (hd : ∀ c ∈ d, c ≠ sep) (ho : ∀ c ∈ o, c ≠ sep) :
    pySplit sep (d ++ sep :: o) = [d, o] := by
  induction d with
  | nil => simp [pySplit, pySplit_no_sep sep o ho]
  | cons c rest ih =>
    have hc : c ≠ sep := hd c (List.mem_cons_self c rest)
    have hrest : ∀ x ∈ rest, x ≠ sep := fun x hx => hd x (List.mem_cons_of_mem c hx)
    simp [pySplit, hc, ih hrest]

/-- C9: the outbound publisher's state topic for the entity
`binary_sensor.front_door` under prefix `ajax` and hub `hub1` is exactly
`ajax/hub1/binary_sensor/front_door/state`; an identifier with no `.`
separator produces no publication; and in general, for an identifier
whose domain and object-id parts surround its only `.`, the topic is
`{prefix}/{hub_id}/{domain}/{object_id}/state`. -/
theorem c9_state_topic :
    Publisher.buildStateTopic "ajax" "hub1" "binary_sensor.front_door" =
      some "ajax/hub1/binary_sensor/front_door/state"
    ∧ (∀ pre hub eid : String, (∀ c ∈ eid.toList, c ≠ '.') →
        Publisher.buildStateTopic pre hub eid = none)
    ∧ (∀ pre hub dom obj : String,
        (∀ c ∈ dom.toList, c ≠ '.') → (∀ c ∈ obj.toList, c ≠ '.') →
        Publisher.buildStateTopic pre hub (dom ++ "." ++ obj) =
          some (pre ++ "/" ++ hub ++ "/" ++ dom ++ "/" ++ obj ++ "/state")) := by
  refine ⟨by decide, ?_, ?_⟩
  · intro pre hub eid h
    have hs : pySplit '.' eid.toList = [eid.toList] := pySplit_no_sep '.' eid.toList h
    simp only [Publisher.buildStateTopic, show eid.toList = eid.data from rfl] at hs ⊢
    rw [hs]
  · intro pre hub dom obj hd ho
    have hsplit : (dom ++ "." ++ obj).toList = dom.toList ++ '.' :: obj.toList := by
      have h0 : (dom ++ "." ++ obj).toList = (dom.toList ++ ['.']) ++ obj.toList := rfl
      rw [h0, List.append_assoc]
      rfl
    simp only [Publisher.buildStateTopic, hsplit, pySplit_one_sep '.' dom.toList obj.toList hd ho]
    rfl

/-- C9 witness: the no-separator clause at the identifier `nodot` and the
general clause at `binary_sensor` / `front_door`. -/
theorem c9_state_topic_witness :
    Publisher.buildStateTopic "ajax" "hub1" "nodot" = none
    ∧ Publisher.buildStateTopic "ajax" "hub1" ("binary_sensor" ++ "." ++ "front_door") =
        some ("ajax" ++ "/" ++ "hub1" ++ "/" ++ "binary_sensor" ++ "/" ++ "front_door" ++ "/state") :=
  ⟨c9_state_topic.2.1 "ajax" "hub1" "nodot" (by decide),
   c9_state_topic.2.2 "ajax" "hub1" "binary_sensor" "front_door" (by decide) (by decide)⟩

/-- Folding `track_entity` over fresh, distinct ids on a running
publisher appends them, one subscription each. -/
theorem foldl_trackEntity_fresh (l : List String) (p : Publisher.PubState)
    (hrun : p.isRunning = true)
    (hfresh : ∀ x ∈ l, x ∉ p.trackedEntities) (hnd : l.Nodup) :
    l.foldl Publisher.trackEntity p =
      { p with
        trackedEntities := p.trackedEntities ++ l,
        subscriptions := p.subscriptions ++ l } := by
  induction l generalizing p with
  | nil => simp
  | cons a rest ih =>
    have ha : a ∉ p.trackedEntities := hfresh a (List.mem_cons_self a rest)
    have hstep : Publisher.trackEntity p a =
        { p with
          trackedEntities := p.trackedEntities ++ [a],
          subscriptions := p.subscriptions ++ [a] } := by
      simp [Publisher.trackEntity, ha, hrun]
    have hndrest : rest.Nodup := (List.nodup_cons.mp hnd).2
    have hanotmem : a ∉ rest := (List.nodup_cons.mp hnd).1
    have hfresh' : ∀ x ∈ rest, x ∉ p.trackedEntities ++ [a] := by
      intro x hx
      simp only [List.mem_append, List.mem_singleton, not_or]
      exact ⟨hfresh x (List.mem_cons_of_mem a hx),
        fun hxa => hanotmem (hxa ▸ hx)⟩
    simp only [List.foldl_cons, hstep]
    rw [ih ⟨p.isRunning, p.trackedEntities ++ [a], p.subscriptions ++ [a]⟩ hrun hfresh' hndrest]
    simp [List.append_assoc]

/-- C7: entity tracking is additive and idempotent — registering the same
id twice at the coordinator is a no-op, re-tracking an id at the
publisher is a no-op (no duplicate subscription), and an id registered
before the publisher exists is queued and, once the publisher starts, is
tracked with exactly one subscription. -/
theorem c7_tracking_idempotent_and_queued (c : Publisher.CoordMqtt)
    (p : Publisher.PubState) (eid : String) :
    Publisher.registerEntityForMqtt (Publisher.registerEntityForMqtt c eid) eid =
      Publisher.registerEntityForMqtt c eid
    ∧ Publisher.trackEntity (Publisher.trackEntity p eid) eid = Publisher.trackEntity p eid
    ∧ (c.publisher = none → c.trackedEntityIds.Nodup →
        ∃ pub, (Publisher.setupMqttPublisher (Publisher.registerEntityForMqtt c eid)
            true true).publisher = some pub
          ∧ eid ∈ pub.trackedEntities
          ∧ pub.subscriptions.count eid = 1) := by
  refine ⟨?_, ?_, ?_⟩
  · by_cases h : eid ∈ c.trackedEntityIds
    · simp [Publisher.registerEntityForMqtt, h]
    · have h2 : eid ∈ c.trackedEntityIds ++ [eid] := by simp
      simp [Publisher.registerEntityForMqtt, h, h2]
  · by_cases h : eid ∈ p.trackedEntities
    · simp [Publisher.trackEntity, h]
    · by_cases hrun : p.isRunning
      · have h2 : eid ∈ p.trackedEntities ++ [eid] := by simp
        simp [Publisher.trackEntity, h, hrun, h2]
      · simp [Publisher.trackEntity, h, hrun]
  · intro hpub hnd
    by_cases h : eid ∈ c.trackedEntityIds
    · refine ⟨⟨true, c.trackedEntityIds, c.trackedEntityIds⟩, ?_, h,
        List.count_eq_one_of_mem hnd h⟩
      have hreg : Publisher.registerEntityForMqtt c eid = c := by
        simp [Publisher.registerEntityForMqtt, h]
      rw [hreg]
      have hfold := foldl_trackEntity_fresh c.trackedEntityIds ⟨true, [], []⟩ rfl
        (by simp) hnd
      simp [Publisher.setupMqttPublisher, hfold]
    · have hnd' : (c.trackedEntityIds ++ [eid]).Nodup := by
        refine List.Nodup.append hnd (by simp) ?_
        intro x hx
        simp only [List.mem_singleton]
        intro hxe
        exact h (hxe ▸ hx)
      refine ⟨⟨true, c.trackedEntityIds ++ [eid], c.trackedEntityIds ++ [eid]⟩, ?_,
        by simp, List.count_eq_one_of_mem hnd' (by simp)⟩
      have hreg : Publisher.registerEntityForMqtt c eid =
          { trackedEntityIds := c.trackedEntityIds ++ [eid], publisher := none } := by
        simp [Publisher.registerEntityForMqtt, h, hpub]
      rw [hreg]
      have hfold := foldl_trackEntity_fresh (c.trackedEntityIds ++ [eid]) ⟨true, [], []⟩ rfl
        (by simp) hnd'
      simp [Publisher.setupMqttPublisher, hfold]

/-- C7 witness: an id registered while the publisher is absent survives
the publisher start with a single subscription. -/
theorem c7_tracking_witness :
    ∃ pub, (Publisher.setupMqttPublisher
        (Publisher.registerEntityForMqtt ⟨["alarm_control_panel.ajax"], none⟩
          "binary_sensor.front_door") true true).publisher = some pub
      ∧ "binary_sensor.front_door" ∈ pub.trackedEntities
      ∧ pub.subscriptions.count "binary_sensor.front_door" = 1 :=
  (c7_tracking_idempotent_and_queued ⟨["alarm_control_panel.ajax"], none⟩
    ⟨true, [], []⟩ "binary_sensor.front_door").2.2 rfl (by decide)

/-- C8: a `Batterie` command with string value `CHARGED` in any letter
case yields battery 100; the numeric string `87` yields battery 87; a
string that is neither a float literal nor `CHARGED` leaves battery unset
and the update returns normally (no raise). -/
theorem c8_battery_sentinel (d : Jeedom.JeedomDevice) (t s₁ s₂ : String)
    (hch : pyUpper s₁ = "CHARGED")
    (hnch : ¬ pyUpper s₂ = "CHARGED") (hnum : pyParseFloat s₂ = none) :
    (Jeedom.updateFromCommand d "Batterie" (.jStr s₁) t).1.battery = some 100
    ∧ (Jeedom.updateFromCommand d "Batterie" (.jStr "87") t).1.battery = some 87
    ∧ (Jeedom.updateFromCommand d "Batterie" (.jStr s₂) t).1.battery = none
    ∧ (Jeedom.updateFromCommand d "Batterie" (.jStr s₂) t).2 ≠ Except.error () := by
  have hm : Jeedom.commandMapping "Batterie" =
      some { attr := "battery", binary := false } := rfl
  have h87 : (pyParseFloat "87").map pyTrunc = some 87 := by decide
  have hup : pyUpper "87" = "87" := by decide
  refine ⟨?_, ?_, ?_, ?_⟩
  · simp [Jeedom.updateFromCommand, hm, hch]
  · simp [Jeedom.updateFromCommand, hm, hup, h87]
  · simp [Jeedom.updateFromCommand, hm, hnch, hnum]
  · simp [Jeedom.updateFromCommand, hm, hnch, hnum]

/-- C8 witness: the three clauses evaluated at `chArGed`, `87` and
`WEAK` on a fresh device. -/
theorem c8_battery_sentinel_witness :
    pyUpper "chArGed" = "CHARGED"
    ∧ ¬ pyUpper "WEAK" = "CHARGED"
    ∧ pyParseFloat "WEAK" = none
    ∧ (Jeedom.updateFromCommand exFreshDoor "Batterie" (.jStr "chArGed") "9").1.battery = some 100
    ∧ (Jeedom.updateFromCommand exFreshDoor "Batterie" (.jStr "87") "9").1.battery = some 87
    ∧ (Jeedom.updateFromCommand exFreshDoor "Batterie" (.jStr "WEAK") "9").1.battery = none :=
  ⟨by decide, by decide, by decide,
    (c8_battery_sentinel exFreshDoor "9" "chArGed" "WEAK" (by decide) (by decide) (by decide)).1,
    (c8_battery_sentinel exFreshDoor "9" "chArGed" "WEAK" (by decide) (by decide) (by decide)).2.1,
    (c8_battery_sentinel exFreshDoor "9" "chArGed" "WEAK" (by decide) (by decide) (by decide)).2.2.1⟩

/-- C2: the door commands evaluated on a fresh door sensor.  `Ouvert`
(inverted) maps raw 0 to open and raw 1 to closed, as the claim states;
but `Fermé` (not inverted) maps raw 1 to `is_open = true` and raw 0 to
`is_open = false` — the opposite of the claimed physical-state mapping,
so the two commands disagree on the same physical state. -/
theorem c2_door_inversion_code :
    (Jeedom.updateFromCommand exFreshDoor "Ouvert" (.jInt 0) "1").1.is_open = some true
    ∧ (Jeedom.updateFromCommand exFreshDoor "Ouvert" (.jInt 1) "1").1.is_open = some false
    ∧ (Jeedom.updateFromCommand exFreshDoor "Fermé" (.jInt 1) "1").1.is_open = some true
    ∧ (Jeedom.updateFromCommand exFreshDoor "Fermé" (.jInt 0) "1").1.is_open = some false := by
  decide

/-- A binary-mapped command whose string value is not an integer literal
makes `update_from_command` raise `ValueError` (uncaught there). -/
theorem updateOuvert_error (d : Jeedom.JeedomDevice) (t s : String)
    (hparse : pyParseInt s = none) :
    (Jeedom.updateFromCommand d "Ouvert" (.jStr s) t).2 = Except.error () := by
  have hm : Jeedom.commandMapping "Ouvert" =
      some { attr := "is_open", binary := true, invert := true } := rfl
  simp [Jeedom.updateFromCommand, hm, Jeedom.pyBoolOfValue, hparse]

/-- C10: `_process_message` never propagates an exception — its result is
always a `(device, attribute)` pair or `none`; in particular a message
carrying the binary-mapped command `Ouvert` with a non-numeric string
value is absorbed as a `none` result (the `ValueError` raised inside
`update_from_command` is caught by the surrounding handler). -/
theorem c10_process_absorbs (st : List (String × Jeedom.JeedomDevice)) (topic : String)
    (p : Jeedom.JPayload) (s : String)
    (hname : p.name = "Ouvert") (hval : p.value = .jStr s) (hparse : pyParseInt s = none) :
    (Jeedom.processMessage st topic p).2 = none := by
  simp only [Jeedom.processMessage]
  split
  · rfl
  · split
    · rfl
    · rw [hname, hval]
      have herr := updateOuvert_error
        (Jeedom.applyCommandTypeUpgrade
          (match Jeedom.assocGet st
              (Jeedom.getDeviceId (Jeedom.parseHumanName p.humanName).2.1
                (Jeedom.parseHumanName p.humanName).1) with
            | some d => d
            | none =>
              Jeedom.mkJeedomDevice
                (Jeedom.getDeviceId (Jeedom.parseHumanName p.humanName).2.1
                  (Jeedom.parseHumanName p.humanName).1)
                (Jeedom.parseHumanName p.humanName).2.1
                (Jeedom.parseHumanName p.humanName).1
                (Jeedom.detectDeviceType (Jeedom.parseHumanName p.humanName).2.1))
          "Ouvert")
        (Jeedom.topicIdOf topic) s hparse
      rcases hstep : Jeedom.updateFromCommand
          (Jeedom.applyCommandTypeUpgrade
            (match Jeedom.assocGet st
                (Jeedom.getDeviceId (Jeedom.parseHumanName p.humanName).2.1
                  (Jeedom.parseHumanName p.humanName).1) with
              | some d => d
              | none =>
                Jeedom.mkJeedomDevice
                  (Jeedom.getDeviceId (Jeedom.parseHumanName p.humanName).2.1
                    (Jeedom.parseHumanName p.humanName).1)
                  (Jeedom.parseHumanName p.humanName).2.1
                  (Jeedom.parseHumanName p.humanName).1
                  (Jeedom.detectDeviceType (Jeedom.parseHumanName p.humanName).2.1))
            "Ouvert")
          "Ouvert" (.jStr s) (Jeedom.topicIdOf topic) with ⟨d2, r⟩
      rw [hstep] at herr
      simp only at herr
      simp [hstep, herr]

/-- C10 witness: a concrete non-numeric `Ouvert` message is absorbed as a
`none` result. -/
theorem c10_process_absorbs_witness :
    pyParseInt "abc" = none
    ∧ (Jeedom.processMessage []
        "jeedom/cmd/event/7"
        { value := .jStr "abc", humanName := "[Z][Porta][Ouvert]", name := "Ouvert" }).2 = none :=
  ⟨by decide,
    c10_process_absorbs [] "jeedom/cmd/event/7"
      { value := .jStr "abc", humanName := "[Z][Porta][Ouvert]", name := "Ouvert" }
      "abc" rfl rfl (by decide)⟩

/-- Every outcome of the simple-format tail of `_handle_message` is
either an ACK followed by an event delivery, or the unparsed warning. -/
theorem handleSimple_shape (cfg : Sia.SiaConfig) (l : List Char) :
    (∃ s ev, Sia.handleSimple cfg l = [.sendAck s, .callbackEvent ev])
    ∨ Sia.handleSimple cfg l = [.warnUnparsed] := by
  cases h : Sia.searchStd l with
  | none =>
    refine .inr ?_
    unfold Sia.handleSimple
    rw [h]
  | some m =>
    cases h2 : Sia.parseEvent cfg m with
    | none =>
      refine .inr ?_
      unfold Sia.handleSimple
      rw [h]
      simp only [h2]
    | some ev =>
      refine .inl ⟨none, ev, ?_⟩
      unfold Sia.handleSimple
      rw [h]
      simp only [h2]

/-- Shape of the standard-format attempt inside the DC-09 branch. -/
theorem handleDc09Std_shape (cfg : Sia.SiaConfig) (l : List Char) (d : Sia.Dc09Match) :
    (∃ s ev, Sia.handleDc09Std cfg l d = [.sendAck s, .callbackEvent ev])
    ∨ Sia.handleDc09Std cfg l d = [.warnUnparsed] := by
  cases h : Sia.searchStd ('[' :: '#' :: d.account ++ '|' :: d.data ++ [']']) with
  | none =>
    have hs : Sia.handleDc09Std cfg l d = Sia.handleSimple cfg l := by
      unfold Sia.handleDc09Std
      rw [h]
    rw [hs]
    exact handleSimple_shape cfg l
  | some m =>
    cases h2 : Sia.parseEvent cfg m with
    | none =>
      have hs : Sia.handleDc09Std cfg l d = Sia.handleSimple cfg l := by
        unfold Sia.handleDc09Std
        rw [h]
        simp only [h2]
      rw [hs]
      exact handleSimple_shape cfg l
    | some ev =>
      refine .inl ⟨some (String.mk d.seq), ev, ?_⟩
      unfold Sia.handleDc09Std
      rw [h]
      simp only [h2]

/-- Shape of the DC-09 branch. -/
theorem handleDc09_shape (cfg : Sia.SiaConfig) (l : List Char) :
    (∃ s ev, Sia.handleDc09 cfg l = [.sendAck s, .callbackEvent ev])
    ∨ Sia.handleDc09 cfg l = [.warnUnparsed] := by
  cases h : Sia.searchDc09 l with
  | none =>
    have hs : Sia.handleDc09 cfg l = Sia.handleSimple cfg l := by
      unfold Sia.handleDc09
      rw [h]
    rw [hs]
    exact handleSimple_shape cfg l
  | some d =>
    cases h2 : Sia.searchAjax ('[' :: d.data ++ [']']) with
    | none =>
      have hs : Sia.handleDc09 cfg l = Sia.handleDc09Std cfg l d := by
        unfold Sia.handleDc09
        rw [h]
        simp only [h2]
      rw [hs]
      exact handleDc09Std_shape cfg l d
    | some m =>
      cases h3 : Sia.parseAjaxEvent cfg m with
      | none =>
        have hs : Sia.handleDc09 cfg l = Sia.handleDc09Std cfg l d := by
          unfold Sia.handleDc09
          rw [h]
          simp only [h2, h3]
        rw [hs]
        exact handleDc09Std_shape cfg l d
      | some ev =>
        refine .inl ⟨some (String.mk d.seq), ev, ?_⟩
        unfold Sia.handleDc09
        rw [h]
        simp only [h2, h3]

/-- C1 (amended): for every received message, `_handle_message` either
writes an acknowledgment and then delivers the event, or logs the
could-not-parse warning and does neither — an ACK is written exactly when
an event is accepted.  In particular, when the account filter rejects the
only parse, no ACK is written (the event is discarded and the ACK is
skipped with it). -/
theorem c1_ack_iff_event_delivered (cfg : Sia.SiaConfig) (msg : String) :
    (∃ s ev, Sia.handleMessage cfg msg = [.sendAck s, .callbackEvent ev])
    ∨ Sia.handleMessage cfg msg = [.warnUnparsed] := by
  cases h : Sia.searchAjax msg.toList with
  | none =>
    have hs : Sia.handleMessage cfg msg = Sia.handleDc09 cfg msg.toList := by
      unfold Sia.handleMessage
      rw [h]
    rw [hs]
    exact handleDc09_shape cfg msg.toList
  | some m =>
    cases h2 : Sia.parseAjaxEvent cfg m with
    | none =>
      have hs : Sia.handleMessage cfg msg = Sia.handleDc09 cfg msg.toList := by
        unfold Sia.handleMessage
        rw [h]
        simp only [h2]
      rw [hs]
      exact handleDc09_shape cfg msg.toList
    | some ev =>
      refine .inl ⟨(Sia.searchSeq msg.toList).map String.mk, ev, ?_⟩
      unfold Sia.handleMessage
      rw [h]
      simp only [h2]

/-- C1 counterexample: a well-formed DC-09 message whose bracketed Ajax
payload carries account `0002` while the receiver expects `0001`.  The
Ajax pattern matches and extracts all fields, the account filter rejects
the event, and — contrary to the claim — no ACK is written: the handler
ends in the could-not-parse warning with neither an ACK nor a callback. -/
theorem c1_counterexample :
    Sia.searchAjax ("\"SIA-DCS\"1234L0#0001[#0002|Nri0/RP0000]").toList =
      some ⟨"0002".toList, "0".toList, "RP".toList, "0000".toList⟩
    ∧ Sia.handleMessage { port := 2410, account := "0001" }
        "\"SIA-DCS\"1234L0#0001[#0002|Nri0/RP0000]" = [Sia.SiaAction.warnUnparsed] := by
  decide

/-- C3 (amended): a message about an already-discovered device whose
command application changes no attribute still produces a notification —
`_process_message` returns the truthy pair `(device, None)`, and
`_handle_message` notifies callbacks and the dispatcher for every truthy
result — with a `None` changed-attribute, rather than being absorbed
silently. -/
theorem c3_unchanged_message_still_notifies
    (st : List (String × Jeedom.JeedomDevice)) (topic : String) (p : Jeedom.JPayload)
    (d : Jeedom.JeedomDevice)
    (hhn : ¬ p.humanName = "") (hnm : ¬ p.name = "")
    (hdev : ¬ (Jeedom.parseHumanName p.humanName).2.1 = "")
    (hfound : Jeedom.assocGet st
        (Jeedom.getDeviceId (Jeedom.parseHumanName p.humanName).2.1
          (Jeedom.parseHumanName p.humanName).1) = some d)
    (hnochange : (Jeedom.updateFromCommand (Jeedom.applyCommandTypeUpgrade d p.name)
        p.name p.value (Jeedom.topicIdOf topic)).2 = Except.ok false) :
    (Jeedom.processMessage st topic p).2 =
      some (Jeedom.getDeviceId (Jeedom.parseHumanName p.humanName).2.1
        (Jeedom.parseHumanName p.humanName).1, none) := by
  simp only [Jeedom.processMessage, hhn, hnm, hdev, hfound, decide_False,
    Bool.or_self, Bool.false_eq_true, if_false]
  rcases hstep : Jeedom.updateFromCommand (Jeedom.applyCommandTypeUpgrade d p.name)
      p.name p.value (Jeedom.topicIdOf topic) with ⟨d2, r⟩
  rw [hstep] at hnochange
  simp only at hnochange
  simp [hstep, hnochange]

/-- C3 counterexample: re-delivering the same door-sensor message to a
registry that already holds the device leaves every stored attribute
unchanged (the registry is equal before and after), yet a notification is
still delivered (with a `None` changed-attribute), contradicting the
claim that unchanged values are absorbed silently. -/
theorem c3_counterexample :
    Jeedom.assocGet exState "ajax_zone1_porta" = some exDevice
    ∧ (Jeedom.handleMqttMessage exState "jeedom/cmd/event/91" (some exPayload)).1 = exState
    ∧ (Jeedom.handleMqttMessage exState "jeedom/cmd/event/91" (some exPayload)).2 ≠ none := by
  decide

/-- C3 witness: the amended statement applied to the concrete unchanged
re-delivery. -/
theorem c3_unchanged_witness :
    (Jeedom.updateFromCommand (Jeedom.applyCommandTypeUpgrade exDevice exPayload.name)
        exPayload.name exPayload.value (Jeedom.topicIdOf "jeedom/cmd/event/91")).2 =
      Except.ok false
    ∧ (Jeedom.processMessage exState "jeedom/cmd/event/91" exPayload).2 =
        some ("ajax_zone1_porta", none) :=
  ⟨by decide,
    c3_unchanged_message_still_notifies exState "jeedom/cmd/event/91" exPayload exDevice
      (by decide) (by decide) (by decide) (by decide) (by decide)⟩

end AjaxSpec
